import Mathlib

/-!
Verification of the Fortivo CRM request model (src/app.py) against its
specification.  The application stores client records in a single table,
serves HTML pages and a JSON API for CRUD on that table, and exports CSV.
We shallowly embed the data model, the request handlers and the WSGI
router as executable Lean functions and settle the specification claims
about them.

Modelling conventions:
  * the clients table (src/app.py lines 81-89) is a list of records plus
    the next AUTOINCREMENT id;
  * request bodies parsed by parse_post_data are maps from the six field
    names to string values; an absent key is `none` (JSON payloads whose
    values are not strings are outside the model);
  * query parameters reaching handle_clients_list / handle_api_clients are
    the already-defaulted strings q, status, sort, order (src/app.py
    lines 207-211);
  * an unhandled Python exception (a 500) is the `HResult.crash` value;
  * rendered HTML templates are out of scope per the spec; a response body
    records the data that reaches the template, not the markup;
  * static file serving reads the filesystem and is out of scope per the
    spec; the router returns a placeholder body for /static/ paths.
-/

namespace FortivoCRM

/-- A row of the clients table (src/app.py lines 81-89): id INTEGER PRIMARY
KEY AUTOINCREMENT, name and email NOT NULL, phone / follow_up_date / notes
nullable TEXT, status NOT NULL with default Lead. -/
structure Client where
  id : Nat
  name : String
  email : String
  phone : Option String
  status : String
  follow_up_date : Option String
  notes : Option String
deriving Repr, DecidableEq

/-- The persistent state: the stored rows in table order and the id the
next INSERT will be assigned (SQLite AUTOINCREMENT counter). -/
structure Store where
  nextId : Nat
  clients : List Client
deriving Repr, DecidableEq

/-- A parsed request body (parse_post_data, src/app.py lines 101-124):
for each of the six client fields, `some v` when the key is present with
string value v, `none` when absent. -/
structure Payload where
  name : Option String
  email : Option String
  phone : Option String
  status : Option String
  follow_up_date : Option String
  notes : Option String
deriving Repr, DecidableEq

/-- The body produced by parsing an empty request body. -/
def Payload.emptyBody : Payload := ⟨none, none, none, none, none, none⟩

/-- Query-string inputs after the defaulting in src/app.py lines 208-211:
q and status default to the empty string, sort to name, order to asc. -/
structure QueryParams where
  q : String
  status : String
  sort : String
  order : String
deriving Repr, DecidableEq

/-- Query parameters of a request with an empty query string. -/
def QueryParams.emptyQuery : QueryParams := ⟨"", "", "name", "asc"⟩

/-- Response bodies.  JSON and CSV payloads carry the data being
serialized; template-rendered pages carry the context data the handler
computed for the template (the markup itself is out of scope). -/
inductive Body where
  | text (s : String)
  | formPage (client : Option Client) (is_edit : Bool)
  | dashboardPage (total leads active inactive overdue : Nat)
  | clientsPage (rows : List (Client × Bool)) (search_term status_filter sort_by order : String)
  | jsonClient (c : Client)
  | jsonClients (cs : List Client)
  | jsonError (msg : String)
  | csv (s : String)
  | staticAsset
  | empty
deriving Repr, DecidableEq

/-- An HTTP response: status code, response headers in order, body. -/
structure Response where
  status : Nat
  headers : List (String × String)
  body : Body
deriving Repr, DecidableEq

/-- Outcome of a handler: a response together with the store it leaves
behind, or an unhandled Python exception (which WSGI surfaces as a 500). -/
inductive HResult where
  | ok (resp : Response) (store : Store)
  | crash
deriving Repr, DecidableEq

/-- not_found (src/app.py lines 127-130). -/
def notFoundResponse : Response := ⟨404, [("Content-Type", "text/plain")], .text "Not Found"⟩

/-- redirect (src/app.py lines 133-136). -/
def redirectResponse (location : String) : Response := ⟨302, [("Location", location)], .text ""⟩

/-- The ASCII whitespace characters the Python str.strip removes (the
further Unicode whitespace is outside the model). -/
def isSpaceChar (c : Char) : Bool :=
  c = ' ' || c = '\t' || c = '\n' || c = '\r' || c = '\x0b' || c = '\x0c'

/-- The Python str.strip on a character list: leading and trailing
characters satisfying p removed. -/
def stripChars (p : Char → Bool) (l : List Char) : List Char :=
  ((l.dropWhile p).reverse.dropWhile p).reverse

/-- Model of the Python str.strip with no arguments: surrounding
whitespace removed. -/
def pyStrip (s : String) : String :=
  String.mk (stripChars isSpaceChar s.toList)

/-- ASCII lowercasing of one character, as the Python str.lower and the
SQL LIKE case folding treat the ASCII range. -/
def lowerChar (c : Char) : Char :=
  if 65 ≤ c.toNat ∧ c.toNat ≤ 90 then Char.ofNat (c.toNat + 32) else c

/-- Model of the Python str.lower on ASCII text. -/
def pyLower (s : String) : String := String.mk (s.toList.map lowerChar)

/-- Lexicographic strict order on character lists by code point, the
comparison both the Python string < and the SQLite text < perform on the
stored ISO date strings. -/
def charsLt : List Char → List Char → Bool
  | [], [] => false
  | [], _ :: _ => true
  | _ :: _, [] => false
  | a :: as, b :: bs =>
    a.toNat < b.toNat || (a = b && charsLt as bs)

/-- Strict lexicographic order on strings (Python and SQLite text <). -/
def strLt (a b : String) : Bool := charsLt a.toList b.toList

/-- The matching non-strict order. -/
def strLe (a b : String) : Bool := ! strLt b a

/-- Whether the first string is a leading segment of the second (the
Python str.startswith). -/
def pathStartsWith (pre s : String) : Bool := pre.toList.isPrefixOf s.toList

/-- The Python s[n:] on a character count (ASCII paths). -/
def dropChars (n : Nat) (s : String) : String := String.mk (s.toList.drop n)

/-- The Python str.split on one separator character: separators delimit
fields, an empty input gives one empty field. -/
def splitOnChar (sep : Char) : List Char → List (List Char)
  | [] => [[]]
  | c :: t =>
    let r := splitOnChar sep t
    if c = sep then [] :: r
    else
      match r with
      | [] => [[c]]
      | h :: rt => (c :: h) :: rt

/-- The Python idiom `s or None` on a string: empty becomes None. -/
def pyOrNone (s : String) : Option String := if s = "" then none else some s

/-- How csv.writer renders a possibly-NULL column: None becomes the
empty field. -/
def optValue : Option String → String
  | none => ""
  | some s => s

/-- Value of a nonempty all-digit character list, `none` otherwise. -/
def digitsVal : List Char → Option Nat
  | [] => none
  | cs => if cs.all Char.isDigit then
      some (cs.foldl (fun a c => a * 10 + (c.toNat - 48)) 0)
    else none

/-- Model of the Python built-in int() on a decimal string: surrounding
whitespace stripped, optional sign, at least one digit; any other string
raises ValueError, modelled as `none` (digit-group underscores omitted). -/
def pyInt (s : String) : Option Int :=
  match (pyStrip s).toList with
  | '-' :: rest => (digitsVal rest).map (fun n => -(n : Int))
  | '+' :: rest => (digitsVal rest).map (fun n => (n : Int))
  | cs => (digitsVal cs).map (fun n => (n : Int))

/-- The Python str.strip applied with the slash character, as used on
request paths (src/app.py line 484). -/
def stripSlashes (s : String) : String :=
  String.mk (stripChars (fun c => c = '/') s.toList)

/-- Whether `needle` occurs as a contiguous sublist of `hay`. -/
def subSeq (needle : List Char) : List Char → Bool
  | [] => needle.isPrefixOf []
  | c :: t => needle.isPrefixOf (c :: t) || subSeq needle t

/-- SQL `column LIKE percent-term-percent` as used for searching: ASCII
case-insensitive substring containment. -/
def likeMatch (term hay : String) : Bool :=
  subSeq (pyLower term).toList (pyLower hay).toList

/-- The WHERE clause built in src/app.py lines 215-224 and 357-366: a
search term restricts to rows whose name or email contains it, a status
filter to rows with exactly that status; an empty input adds no
condition. -/
def rowFilter (search_term status_filter : String) (c : Client) : Bool :=
  (search_term = "" || (likeMatch search_term c.name || likeMatch search_term c.email)) &&
  (status_filter = "" || c.status = status_filter)

/-- The sort key a client row yields for an ORDER BY column. -/
def sortKey (col : String) (c : Client) : Option String :=
  if col = "email" then some c.email
  else if col = "phone" then c.phone
  else if col = "status" then some c.status
  else if col = "follow_up_date" then c.follow_up_date
  else some c.name

/-- SQLite ascending ORDER BY on a nullable text column: NULL sorts
before every string, strings sort lexicographically. -/
def sqliteLeAsc (a b : Option String) : Bool :=
  match a, b with
  | none, _ => true
  | some _, none => false
  | some x, some y => strLe x y

/-- Stable insertion of a row into a sorted list. -/
def insertSorted (le : Client → Client → Bool) (c : Client) : List Client → List Client
  | [] => [c]
  | d :: t => if le c d then c :: d :: t else d :: insertSorted le c t

/-- Insertion sort of the rows by the given order (a deterministic,
stable realisation of the ORDER BY). -/
def sortClients (le : Client → Client → Bool) : List Client → List Client
  | [] => []
  | c :: t => insertSorted le c (sortClients le t)

/-- ORDER BY `col` `dir` over the rows (dir is ASC or DESC). -/
def orderClients (col dir : String) (rows : List Client) : List Client :=
  sortClients (fun a b =>
    if dir = "DESC" then sqliteLeAsc (sortKey col b) (sortKey col a)
    else sqliteLeAsc (sortKey col a) (sortKey col b)) rows

/-- Count of rows with the given status, as the dashboard GROUP BY
yields it (src/app.py lines 172-178). -/
def statusCount (label : String) (s : Store) : Nat :=
  (s.clients.filter (fun c => c.status = label)).length

/-- The dashboard overdue KPI (src/app.py lines 179-185): COUNT of rows
WHERE follow_up_date IS NOT NULL AND follow_up_date < today.  SQL string
comparison; note an empty-string follow_up_date IS NOT NULL and compares
below every nonempty date. -/
def dashboardOverdueCount (today : String) (s : Store) : Nat :=
  (s.clients.filter (fun c =>
    match c.follow_up_date with
    | none => false
    | some d => strLt d today)).length

/-- handle_dashboard (src/app.py lines 167-202): renders the KPI counts. -/
def handle_dashboard (today : String) (s : Store) : Response :=
  ⟨200, [("Content-Type", "text/html")],
    .dashboardPage s.clients.length (statusCount "Lead" s) (statusCount "Active" s)
      (statusCount "Inactive" s) (dashboardOverdueCount today s)⟩

/-- The set of column names accepted for sorting (src/app.py line 226). -/
def valid_sort_columns : List String := ["name", "email", "phone", "status", "follow_up_date"]

/-- Sort-column validation (src/app.py lines 227-228): any value outside
the allow-list falls back to name. -/
def validateSortBy (sort_by : String) : String :=
  if sort_by ∈ valid_sort_columns then sort_by else "name"

/-- Sort-direction validation (src/app.py line 229): DESC exactly when
the order input lowercases to desc, else ASC. -/
def orderClause (order : String) : String :=
  if pyLower order = "desc" then "DESC" else "ASC"

/-- The derived overdue flag of one list row (src/app.py lines 239-244):
false when follow_up_date is missing or empty (Python falsiness), else a
lexicographic comparison against the current ISO date string. -/
def deriveOverdue (today : String) (c : Client) : Bool :=
  match c.follow_up_date with
  | none => false
  | some d => if d = "" then false else strLt d today

/-- handle_clients_list (src/app.py lines 205-257): filter, validate the
sort inputs, order the rows, and derive each overdue flag. -/
def handle_clients_list (qp : QueryParams) (today : String) (s : Store) : Response :=
  let search_term := pyStrip qp.q
  let sort_by := validateSortBy qp.sort
  let rows := orderClients sort_by (orderClause qp.order)
    (s.clients.filter (rowFilter search_term qp.status))
  ⟨200, [("Content-Type", "text/html")],
    .clientsPage (rows.map (fun c => (c, deriveOverdue today c)))
      search_term qp.status sort_by qp.order⟩

/-- Number of rows whose derived overdue flag is true in the client list
view over all stored rows (src/app.py lines 236-245). -/
def listOverdueCount (today : String) (s : Store) : Nat :=
  ((s.clients.map (fun c => (c, deriveOverdue today c))).filter (fun r => r.2)).length

/-- INSERT of a new client row (src/app.py lines 283-287 and 386-390):
the row takes the next AUTOINCREMENT id and is appended. -/
def insertClient (name email phone status_val : String) (fu : Option String)
    (notes : String) (s : Store) : Client × Store :=
  let c : Client := ⟨s.nextId, name, email, some phone, status_val, fu, some notes⟩
  (c, ⟨s.nextId + 1, s.clients ++ [c]⟩)

/-- SELECT * FROM clients WHERE id=? fetching one row. -/
def fetchClient (cid : Int) (s : Store) : Option Client :=
  s.clients.find? (fun c => decide ((c.id : Int) = cid))

/-- DELETE FROM clients WHERE id=? (src/app.py lines 319 and 445). -/
def deleteClient (cid : Int) (s : Store) : Store :=
  ⟨s.nextId, s.clients.filter (fun c => decide ((c.id : Int) ≠ cid))⟩

/-- handle_client_form (src/app.py lines 260-312): on POST with nonempty
stripped name and email, INSERT (no client id) or full UPDATE of all six
fields (client id given) and redirect to /clients; otherwise render the
form with the store unchanged. -/
def handle_client_form (method : String) (p : Payload) (client_id : Option Int)
    (s : Store) : Response × Store :=
  let name := pyStrip (p.name.getD "")
  let email := pyStrip (p.email.getD "")
  let phone := pyStrip (p.phone.getD "")
  let status_val := p.status.getD "Lead"
  let follow_up_date := pyOrNone (p.follow_up_date.getD "")
  let notes := pyStrip (p.notes.getD "")
  if method = "POST" ∧ name ≠ "" ∧ email ≠ "" then
    match client_id with
    | none =>
      (redirectResponse "/clients", (insertClient name email phone status_val follow_up_date notes s).2)
    | some cid =>
      (redirectResponse "/clients",
        ⟨s.nextId, s.clients.map (fun c =>
          if (c.id : Int) = cid then
            ⟨c.id, name, email, some phone, status_val, follow_up_date, some notes⟩
          else c)⟩)
  else
    (⟨200, [("Content-Type", "text/html")],
      .formPage (client_id.bind (fun cid => fetchClient cid s)) client_id.isSome⟩, s)

/-- handle_client_delete (src/app.py lines 315-322). -/
def handle_client_delete (cid : Int) (s : Store) : Response × Store :=
  (redirectResponse "/clients", deleteClient cid s)

/-- Minimal quoting of one CSV field as csv.writer performs it: a field
containing a comma, quote or line break is quoted with quotes doubled. -/
def escapeQuotes : List Char → List Char
  | [] => []
  | c :: t => if c = '"' then '"' :: '"' :: escapeQuotes t else c :: escapeQuotes t

def csvQuote (s : String) : String :=
  if s.toList.any (fun c => c = ',' || c = '"' || c = '\n' || c = '\r') then
    "\"" ++ String.mk (escapeQuotes s.toList) ++ "\""
  else s

/-- One csv.writer row: comma-joined quoted fields plus CRLF. -/
def csvRow (fields : List String) : String :=
  String.intercalate "," (fields.map csvQuote) ++ "\r\n"

/-- The CSV cells of one client row in column order (src/app.py
lines 336-338). -/
def clientCsvRow (c : Client) : String :=
  csvRow [toString c.id, c.name, c.email, optValue c.phone, c.status,
    optValue c.follow_up_date, optValue c.notes]

/-- handle_export_csv (src/app.py lines 325-344): all rows ORDER BY name
ASC, a header row of the seven column names, text/csv attachment. -/
def handle_export_csv (s : Store) : Response :=
  let sorted := orderClients "name" "ASC" s.clients
  ⟨200, [("Content-Type", "text/csv"),
    ("Content-Disposition", "attachment; filename=\"clients.csv\"")],
    .csv (csvRow ["id", "name", "email", "phone", "status", "follow_up_date", "notes"] ++
      String.join (sorted.map clientCsvRow))⟩

/-- handle_api_clients (src/app.py lines 347-402): GET lists with
optional filters; POST validates stripped name and email, inserts, and
echoes the row selected back by its new id; other verbs get 405 with an
Allow header. -/
def handle_api_clients (method : String) (p : Payload) (qp : QueryParams)
    (s : Store) : HResult :=
  if method = "GET" then
    .ok ⟨200, [("Content-Type", "application/json")],
      .jsonClients (s.clients.filter (rowFilter (pyStrip qp.q) qp.status))⟩ s
  else if method = "POST" then
    let name := pyStrip (p.name.getD "")
    let email := pyStrip (p.email.getD "")
    let phone := pyStrip (p.phone.getD "")
    let status_val := p.status.getD "Lead"
    let follow_up_date := (p.follow_up_date.getD "") |> pyOrNone
    let notes := pyStrip (p.notes.getD "")
    if name = "" ∨ email = "" then
      .ok ⟨400, [("Content-Type", "application/json")],
        .jsonError "name and email are required"⟩ s
    else
      let s' := (insertClient name email phone status_val follow_up_date notes s).2
      match fetchClient (s.nextId : Int) s' with
      | none => .crash
      | some new_client =>
        .ok ⟨201, [("Content-Type", "application/json")], .jsonClient new_client⟩ s'
  else
    .ok ⟨405, [("Allow", "GET, POST")], .empty⟩ s

/-- The six updatable columns, in the order the update loop visits them
(src/app.py line 425). -/
def apiCols : List String := ["name", "email", "phone", "status", "follow_up_date", "notes"]

/-- Lookup of one field of a parsed payload by column name. -/
def payloadGet (p : Payload) : String → Option String
  | "name" => p.name
  | "email" => p.email
  | "phone" => p.phone
  | "status" => p.status
  | "follow_up_date" => p.follow_up_date
  | "notes" => p.notes
  | _ => none

/-- The columns the partial update will set: those present in the
payload (src/app.py lines 423-428). -/
def presentFields (p : Payload) : List String :=
  apiCols.filter (fun f => (payloadGet p f).isSome)

/-- Effect of the built UPDATE statement on the matched row: each
present payload value is stored verbatim (no stripping, no
empty-to-NULL), absent columns keep their value. -/
def applyUpdate (p : Payload) (c : Client) : Client :=
  { c with
    name := p.name.getD c.name
    email := p.email.getD c.email
    phone := match p.phone with | some v => some v | none => c.phone
    status := p.status.getD c.status
    follow_up_date := match p.follow_up_date with | some v => some v | none => c.follow_up_date
    notes := match p.notes with | some v => some v | none => c.notes }

/-- handle_api_client_detail (src/app.py lines 405-453).  GET fetches or
404s; PUT and PATCH partial-update the present fields, 400 when none is
present, then re-select the row by id and build a dict from the fetch
result, which raises TypeError (crash) when no row has that id; DELETE
deletes unconditionally with 204; other verbs get 405 with Allow. -/
def handle_api_client_detail (method : String) (p : Payload) (client_id : Int)
    (s : Store) : HResult :=
  if method = "GET" then
    match fetchClient client_id s with
    | none => .ok ⟨404, [("Content-Type", "application/json")], .jsonError "client not found"⟩ s
    | some row => .ok ⟨200, [("Content-Type", "application/json")], .jsonClient row⟩ s
  else if method = "PUT" ∨ method = "PATCH" then
    if presentFields p = [] then
      .ok ⟨400, [("Content-Type", "application/json")], .jsonError "no fields to update"⟩ s
    else
      let s' : Store := ⟨s.nextId, s.clients.map (fun c =>
        if (c.id : Int) = client_id then applyUpdate p c else c)⟩
      match fetchClient client_id s' with
      | none => .crash
      | some updated =>
        .ok ⟨200, [("Content-Type", "application/json")], .jsonClient updated⟩ s'
  else if method = "DELETE" then
    .ok ⟨204, [], .empty⟩ (deleteClient client_id s)
  else
    .ok ⟨405, [("Allow", "GET, PUT, PATCH, DELETE")], .empty⟩ s

/-- The block at src/app.py lines 483-495 guarding paths that start with
/clients/ : with at least two stripped segments, a non-integer second
segment is an immediate 404; an integer one dispatches three-segment
edit and delete paths; anything else falls through (`none`) to the
routes below the block. -/
def clientsPathBlock (method : String) (p : Payload) (path : String)
    (s : Store) : Option (Response × Store) :=
  let parts := (splitOnChar '/' (stripSlashes path).toList).map (fun l => String.mk l)
  if parts.length ≥ 2 then
    match pyInt (parts.getD 1 "") with
    | none => some (notFoundResponse, s)
    | some cid =>
      if parts.length = 3 ∧ parts.getD 2 "" = "edit" then
        some (handle_client_form method p (some cid) s)
      else if parts.length = 3 ∧ parts.getD 2 "" = "delete" then
        some (handle_client_delete cid s)
      else none
  else none

/-- The routes checked after the /clients/ block (src/app.py
lines 496-509): CSV export, the API collection, the API detail route
with its integer id parse, and the 404 fallback. -/
def appTail (method path : String) (p : Payload) (qp : QueryParams)
    (s : Store) : HResult :=
  if path = "/clients/export" ∧ method = "GET" then
    .ok (handle_export_csv s) s
  else if path = "/api/clients" then
    handle_api_clients method p qp s
  else if pathStartsWith "/api/clients/" path then
    match pyInt (dropChars 13 path) with
    | none => .ok notFoundResponse s
    | some cid => handle_api_client_detail method p cid s
  else
    .ok notFoundResponse s

/-- The WSGI application callable app (src/app.py lines 456-509): the
route checks in source order.  today is the current ISO date string the
handlers read from the clock. -/
def app (method path : String) (p : Payload) (qp : QueryParams) (today : String)
    (s : Store) : HResult :=
  if pathStartsWith "/static/" path then
    .ok ⟨200, [], .staticAsset⟩ s
  else if path = "/" ∧ method = "GET" then
    .ok (redirectResponse "/dashboard") s
  else if path = "/dashboard" ∧ method = "GET" then
    .ok (handle_dashboard today s) s
  else if path = "/clients" ∧ method = "GET" then
    .ok (handle_clients_list qp today s) s
  else if path = "/clients/new" then
    let r := handle_client_form method p none s
    .ok r.1 r.2
  else if pathStartsWith "/clients/" path then
    match clientsPathBlock method p path s with
    | some r => .ok r.1 r.2
    | none => appTail method path p qp s
  else
    appTail method path p qp s

/-- The record invariant of the spec: a stored name or email is neither
empty nor whitespace-only. -/
def Inv (s : Store) : Prop :=
  ∀ c ∈ s.clients, pyStrip c.name ≠ "" ∧ pyStrip c.email ≠ ""

/-! ### Helper lemmas -/

theorem dropWhile_head_not {p : Char → Bool} :
    ∀ {l : List Char} {x : Char} {xs : List Char},
      l.dropWhile p = x :: xs → p x = false := by
  intro l
  induction l with
  | nil => intro x xs h; simp at h
  | cons a t ih =>
    intro x xs h
    by_cases hp : p a = true
    · rw [List.dropWhile_cons_of_pos hp] at h
      exact ih h
    · rw [List.dropWhile_cons_of_neg (by simpa using hp)] at h
      cases h
      simpa using hp

theorem stripChars_eq_nil_all {p : Char → Bool} {l : List Char}
    (h : stripChars p l = []) : ∀ x ∈ l, p x = true := by
  unfold stripChars at h
  rw [List.reverse_eq_nil_iff, List.dropWhile_eq_nil_iff] at h
  intro x hx
  rcases List.mem_append.1 ((List.takeWhile_append_dropWhile p l) ▸ hx) with h1 | h2
  · simpa using List.mem_takeWhile_imp h1
  · simpa using h x (List.mem_reverse.2 h2)

theorem stripChars_ne_nil_not_all {p : Char → Bool} {l : List Char}
    (h : stripChars p l ≠ []) : ¬ (∀ x ∈ stripChars p l, p x = true) := by
  intro hall
  unfold stripChars at h hall
  rcases hcase : ((l.dropWhile p).reverse).dropWhile p with _ | ⟨x, xs⟩
  · rw [hcase] at h
    simp at h
  · have hx : p x = false := dropWhile_head_not hcase
    have hmem : x ∈ (((l.dropWhile p).reverse).dropWhile p).reverse := by
      rw [hcase]; simp
    have := hall x hmem
    simp [hx] at this

theorem pyStrip_toList (s : String) :
    (pyStrip s).toList = stripChars isSpaceChar s.toList := rfl

theorem pyStrip_ne_empty_of_stripped {s : String} (h : pyStrip s ≠ "") :
    pyStrip (pyStrip s) ≠ "" := by
  intro h2
  have hne : stripChars isSpaceChar s.toList ≠ [] := by
    intro h0
    apply h
    show String.mk (stripChars isSpaceChar s.toList) = ""
    rw [h0]
  have hnil : stripChars isSpaceChar (stripChars isSpaceChar s.toList) = [] := by
    have h3 : String.mk (stripChars isSpaceChar (stripChars isSpaceChar s.toList)) = "" := h2
    exact congrArg String.toList h3
  exact stripChars_ne_nil_not_all hne (stripChars_eq_nil_all hnil)

theorem find?_append_of_none {p : Client → Bool} {l1 : List Client}
    (h : ∀ c ∈ l1, p c = false) (l2 : List Client) :
    (l1 ++ l2).find? p = l2.find? p := by
  induction l1 with
  | nil => rfl
  | cons a t ih =>
    rw [List.cons_append, List.find?_cons_of_neg _ (by simp [h a (List.mem_cons_self a t)])]
    exact ih fun c hc => h c (List.mem_cons_of_mem a hc)

theorem deleteClient_idem (cid : Int) (s : Store) :
    deleteClient cid (deleteClient cid s) = deleteClient cid s := by
  unfold deleteClient
  simp only [Store.mk.injEq, true_and]
  apply List.filter_eq_self.2
  intro a ha
  exact (List.mem_filter.1 ha).2

theorem charsLt_irrefl : ∀ l : List Char, charsLt l l = false := by
  intro l
  induction l with
  | nil => rfl
  | cons a t ih => simp [charsLt, ih]

theorem Inv_append {s : Store} (hInv : Inv s) (n : Nat) (c : Client)
    (hc1 : pyStrip c.name ≠ "") (hc2 : pyStrip c.email ≠ "") :
    Inv ⟨n, s.clients ++ [c]⟩ := by
  intro x hx
  rcases List.mem_append.1 hx with hx | hx
  · exact hInv x hx
  · have hxc := List.mem_singleton.1 hx
    subst hxc
    exact ⟨hc1, hc2⟩

theorem fetchClient_append_fresh (s : Store) (c : Client) (n : Nat)
    (hfresh : ∀ x ∈ s.clients, x.id < s.nextId) (hc : c.id = s.nextId) :
    fetchClient (s.nextId : Int) ⟨n, s.clients ++ [c]⟩ = some c := by
  have hnone : ∀ x ∈ s.clients,
      (fun x : Client => decide ((x.id : Int) = ((s.nextId : Nat) : Int))) x = false := by
    intro x hx
    simp only [decide_eq_false_iff_not]
    intro heq
    have hxid : x.id = s.nextId := by exact_mod_cast heq
    have := hfresh x hx
    omega
  show (s.clients ++ [c]).find? (fun x => decide ((x.id : Int) = (s.nextId : Int))) = some c
  rw [find?_append_of_none hnone]
  rw [List.find?_cons_of_pos _ (by simp [hc])]

/-! ### Claims -/

/-- C1: the claim says a GET request to /clients/export reaches the CSV
export handler and yields a 200 text/csv attachment.  In the code the
route check for /clients/export sits below the general /clients/ prefix
block, whose integer parse of the second segment fails on the word
export and returns 404 immediately: for every store the router answers
404 Not Found, while the (unreachable) handler would have produced the
described 200 text/csv response with the seven-column header row over
the rows sorted by name. -/
theorem c1_export_route_is_dead (p : Payload) (qp : QueryParams) (today : String) (s : Store) :
    app "GET" "/clients/export" p qp today s = .ok notFoundResponse s ∧
    (handle_export_csv s).status = 200 ∧
    (handle_export_csv s).headers =
      [("Content-Type", "text/csv"),
       ("Content-Disposition", "attachment; filename=\"clients.csv\"")] ∧
    (handle_export_csv s).body =
      .csv ("id,name,email,phone,status,follow_up_date,notes\r\n" ++
        String.join ((orderClients "name" "ASC" s.clients).map clientCsvRow)) :=
  ⟨rfl, rfl, rfl, rfl⟩

/-- C2: the claim says a PUT or PATCH on the API detail route always
yields 200 with the updated object or 400 for an empty field set, with
no other outcome even for a missing id.  In the code an update of an id
that is not in the store executes the UPDATE over zero rows and then
builds a dict from a fetch that returned no row, raising TypeError: at
the concrete input PATCH /api/clients/1 with a name field on an empty
store the handler crashes, a third outcome. -/
theorem c2_update_of_missing_id_crashes :
    app "PATCH" "/api/clients/1" ⟨some "x", none, none, none, none, none⟩
      QueryParams.emptyQuery "2026-10-12" ⟨1, []⟩ = .crash ∧
    handle_api_client_detail "PUT" ⟨some "x", none, none, none, none, none⟩ 1
      ⟨1, []⟩ = .crash := by
  constructor <;> rfl

/-- C5 counterexample: a POST to the recognized path /dashboard is
claimed to yield 405 with an Allow header; the router instead falls
through every route check and returns the 404 not-found response. -/
theorem c5_counterexample :
    app "POST" "/dashboard" Payload.emptyBody QueryParams.emptyQuery "2026-10-12" ⟨1, []⟩ =
      .ok notFoundResponse ⟨1, []⟩ := rfl

/-- C5 amended: only the two API routes implement method-not-allowed.
A verb other than GET and POST on /api/clients yields 405 with Allow
GET, POST; a verb outside GET, PUT, PATCH, DELETE on /api/clients/id
yields 405 with the matching Allow header; the recognized non-API paths
/dashboard, /clients and /clients/export answer 404, not 405, to
unlisted verbs. -/
theorem c5_amended (method : String) (p : Payload) (qp : QueryParams) (today : String)
    (s : Store) (h1 : method ≠ "GET") (h2 : method ≠ "POST") :
    app method "/api/clients" p qp today s =
      .ok ⟨405, [("Allow", "GET, POST")], .empty⟩ s ∧
    (method ≠ "PUT" → method ≠ "PATCH" → method ≠ "DELETE" →
      app method "/api/clients/7" p qp today s =
        .ok ⟨405, [("Allow", "GET, PUT, PATCH, DELETE")], .empty⟩ s) ∧
    app method "/dashboard" p qp today s = .ok notFoundResponse s ∧
    app method "/clients" p qp today s = .ok notFoundResponse s ∧
    app method "/clients/export" p qp today s = .ok notFoundResponse s := by
  refine ⟨?_, ?_, ?_, ?_, ?_⟩
  · show handle_api_clients method p qp s = _
    simp [handle_api_clients, h1, h2]
  · intro h3 h4 h5
    show handle_api_client_detail method p 7 s = _
    simp [handle_api_client_detail, h1, h2, h3, h4, h5]
  · show (if "/dashboard" = "/dashboard" ∧ method = "GET"
        then HResult.ok (handle_dashboard today s) s
        else HResult.ok notFoundResponse s) = HResult.ok notFoundResponse s
    simp [h1]
  · show (if "/clients" = "/clients" ∧ method = "GET"
        then HResult.ok (handle_clients_list qp today s) s
        else HResult.ok notFoundResponse s) = HResult.ok notFoundResponse s
    simp [h1]
  · rfl

/-- C5 witness: the amended statement at the concrete verb OPTIONS. -/
theorem c5_witness :
    app "OPTIONS" "/api/clients" Payload.emptyBody QueryParams.emptyQuery "2026-10-12" ⟨1, []⟩ =
      .ok ⟨405, [("Allow", "GET, POST")], .empty⟩ ⟨1, []⟩ :=
  (c5_amended "OPTIONS" Payload.emptyBody QueryParams.emptyQuery "2026-10-12" ⟨1, []⟩
    (by decide) (by decide)).1

/-- C7: a PUT or PATCH whose payload contains none of the six updatable
fields yields 400 with the no-fields-to-update error and returns the
store unchanged, for every id. -/
theorem c7_empty_update_rejected (method : String)
    (hm : method = "PUT" ∨ method = "PATCH") (p : Payload)
    (hp : presentFields p = []) (cid : Int) (s : Store) :
    handle_api_client_detail method p cid s =
      .ok ⟨400, [("Content-Type", "application/json")],
        .jsonError "no fields to update"⟩ s := by
  rcases hm with hm | hm <;> subst hm <;> simp [handle_api_client_detail, hp]

/-- C7 witness: the empty payload against a one-row store. -/
theorem c7_witness :
    handle_api_client_detail "PUT" Payload.emptyBody 1
        ⟨2, [⟨1, "Ada", "ada@x.io", some "", "Lead", none, some ""⟩]⟩ =
      .ok ⟨400, [("Content-Type", "application/json")],
        .jsonError "no fields to update"⟩
        ⟨2, [⟨1, "Ada", "ada@x.io", some "", "Lead", none, some ""⟩]⟩ :=
  c7_empty_update_rejected "PUT" (Or.inl rfl) Payload.emptyBody (by decide) 1
    ⟨2, [⟨1, "Ada", "ada@x.io", some "", "Lead", none, some ""⟩]⟩

/-- C8: the derived overdue flag of the client list is true exactly when
follow_up_date is present, nonempty, and lexicographically below the
current date string; in particular a follow_up_date equal to the current
date is not overdue. -/
theorem c8_overdue_rule (c : Client) (today : String) :
    (deriveOverdue today c = true ↔
      ∃ d, c.follow_up_date = some d ∧ d ≠ "" ∧ strLt d today = true) ∧
    (c.follow_up_date = some today → deriveOverdue today c = false) := by
  constructor
  · cases hfu : c.follow_up_date with
    | none => simp [deriveOverdue, hfu]
    | some d =>
      by_cases hd : d = "" <;> simp [deriveOverdue, hfu, hd]
  · intro hfu
    simp [deriveOverdue, hfu]
    intro
    exact charsLt_irrefl today.toList

/-- C9: the sort column placed into the ORDER BY is always a member of
the allow-list, with any other input falling back to name, and the sort
direction is always ASC or DESC, with ASC for every order input that
does not lowercase to desc. -/
theorem c9_sort_validation (sort_by order : String) :
    validateSortBy sort_by ∈ valid_sort_columns ∧
    (sort_by ∉ valid_sort_columns → validateSortBy sort_by = "name") ∧
    (orderClause order = "ASC" ∨ orderClause order = "DESC") ∧
    (pyLower order ≠ "desc" → orderClause order = "ASC") := by
  refine ⟨?_, ?_, ?_, ?_⟩
  · unfold validateSortBy
    split
    · assumption
    · decide
  · intro h
    simp [validateSortBy, h]
  · unfold orderClause
    split
    · exact Or.inr rfl
    · exact Or.inl rfl
  · intro h
    simp [orderClause, h]

/-- C10: DELETE on the API detail route answers 204 with an empty body
whether or not the id exists, a second DELETE of the same id behaves
identically, and afterwards no row with that id remains while every
other row is kept unchanged. -/
theorem c10_delete_idempotent (cid : Int) (p p2 : Payload) (s : Store) :
    handle_api_client_detail "DELETE" p cid s =
      .ok ⟨204, [], .empty⟩ (deleteClient cid s) ∧
    handle_api_client_detail "DELETE" p2 cid (deleteClient cid s) =
      .ok ⟨204, [], .empty⟩ (deleteClient cid s) ∧
    (∀ c ∈ (deleteClient cid s).clients, (c.id : Int) ≠ cid) ∧
    (∀ c ∈ s.clients, (c.id : Int) ≠ cid → c ∈ (deleteClient cid s).clients) ∧
    (∀ c ∈ (deleteClient cid s).clients, c ∈ s.clients) := by
  refine ⟨rfl, ?_, ?_, ?_, ?_⟩
  · show HResult.ok ⟨204, [], .empty⟩ (deleteClient cid (deleteClient cid s)) = _
    rw [deleteClient_idem]
  · intro c hc
    have := (List.mem_filter.1 hc).2
    simpa using this
  · intro c hc hne
    exact List.mem_filter.2 ⟨hc, by simpa using hne⟩
  · intro c hc
    exact (List.mem_filter.1 hc).1

/-- C3 counterexample: the claim says no create or update operation,
the API partial update included, can leave a stored record with an
empty or whitespace-only name or email.  The API partial update stores
payload values verbatim without validation: a PATCH setting name to the
empty string on an existing record succeeds with 200 and leaves a
stored record whose name is empty, violating the invariant. -/
theorem c3_counterexample :
    handle_api_client_detail "PATCH" ⟨some "", none, none, none, none, none⟩ 1
        ⟨2, [⟨1, "Ada", "ada@x.io", some "", "Lead", none, some ""⟩]⟩ =
      .ok ⟨200, [("Content-Type", "application/json")],
          .jsonClient ⟨1, "", "ada@x.io", some "", "Lead", none, some ""⟩⟩
        ⟨2, [⟨1, "", "ada@x.io", some "", "Lead", none, some ""⟩]⟩ ∧
    ¬ Inv ⟨2, [⟨1, "", "ada@x.io", some "", "Lead", none, some ""⟩]⟩ := by
  constructor
  · rfl
  · intro h
    exact (h ⟨1, "", "ada@x.io", some "", "Lead", none, some ""⟩ (by simp)).1 rfl

/-- C3 amended: the create operations (HTML form and API POST), the
full form update and the deletes preserve the invariant that every
stored name and email is nonempty after trimming; only the API partial
update path can break it, because it stores payload values verbatim. -/
theorem c3_amended (s : Store) (hInv : Inv s) (method : String) (p : Payload)
    (cid : Option Int) (did : Int) (qp : QueryParams) :
    Inv (handle_client_form method p cid s).2 ∧
    Inv (handle_client_delete did s).2 ∧
    (∀ r s2, handle_api_clients method p qp s = .ok r s2 → Inv s2) := by
  refine ⟨?_, ?_, ?_⟩
  · simp only [handle_client_form]
    split
    · next hcond =>
      obtain ⟨hm, hn, he⟩ := hcond
      split
      · exact Inv_append hInv _ _
          (pyStrip_ne_empty_of_stripped hn) (pyStrip_ne_empty_of_stripped he)
      · next cidv =>
        intro x hx
        rcases List.mem_map.1 hx with ⟨c, hc, rfl⟩
        by_cases hid : (c.id : Int) = cidv
        · rw [if_pos hid]
          exact ⟨pyStrip_ne_empty_of_stripped hn, pyStrip_ne_empty_of_stripped he⟩
        · rw [if_neg hid]
          exact hInv c hc
    · exact hInv
  · intro x hx
    exact hInv x (List.mem_filter.1 hx).1
  · intro r s2 heq
    simp only [handle_api_clients] at heq
    split at heq
    · cases heq
      exact hInv
    · split at heq
      · split at heq
        · cases heq
          exact hInv
        · next hval =>
          push_neg at hval
          split at heq
          · cases heq
          · cases heq
            exact Inv_append hInv _ _
              (pyStrip_ne_empty_of_stripped hval.1) (pyStrip_ne_empty_of_stripped hval.2)
      · cases heq
        exact hInv

/-- C3 witness: the amended preservation applied to a form create over
the empty store. -/
theorem c3_witness :
    Inv (handle_client_form "POST"
      ⟨some " Ada ", some " ada@x.io ", none, none, none, none⟩ none ⟨1, []⟩).2 :=
  (c3_amended ⟨1, []⟩ (fun c hc => absurd hc (List.not_mem_nil c)) "POST"
    ⟨some " Ada ", some " ada@x.io ", none, none, none, none⟩ none 0
    QueryParams.emptyQuery).1

/-- C4 counterexample: the claim says the dashboard overdue count and
the list view overdue flags agree on every store, including records
whose follow_up_date is the empty string.  An empty-string
follow_up_date is reachable through the API partial update; on such a
record the dashboard SQL (IS NOT NULL and an empty string sorts below
every date) counts it overdue while the list view (Python falsiness)
does not: the counts are 1 and 0. -/
theorem c4_counterexample :
    handle_api_client_detail "PATCH" ⟨none, none, none, none, some "", none⟩ 1
        ⟨2, [⟨1, "Ada", "ada@x.io", some "", "Lead", none, some ""⟩]⟩ =
      .ok ⟨200, [("Content-Type", "application/json")],
          .jsonClient ⟨1, "Ada", "ada@x.io", some "", "Lead", some "", some ""⟩⟩
        ⟨2, [⟨1, "Ada", "ada@x.io", some "", "Lead", some "", some ""⟩]⟩ ∧
    dashboardOverdueCount "2026-10-12"
      ⟨2, [⟨1, "Ada", "ada@x.io", some "", "Lead", some "", some ""⟩]⟩ = 1 ∧
    listOverdueCount "2026-10-12"
      ⟨2, [⟨1, "Ada", "ada@x.io", some "", "Lead", some "", some ""⟩]⟩ = 0 := by
  refine ⟨rfl, rfl, rfl⟩

/-- C4 amended: on every store in which no record carries an
empty-string follow_up_date (NULL or a nonempty string are fine), the
dashboard overdue count equals the number of list rows whose derived
overdue flag is true, both applying the lexicographic rule. -/
theorem c4_amended (today : String) (s : Store)
    (h : ∀ c ∈ s.clients, c.follow_up_date ≠ some "") :
    dashboardOverdueCount today s = listOverdueCount today s := by
  unfold dashboardOverdueCount listOverdueCount
  rw [List.filter_map, List.length_map]
  apply congrArg List.length
  apply List.filter_congr
  intro c hc
  rcases hfu : c.follow_up_date with _ | d
  · simp [Function.comp, deriveOverdue, hfu]
  · have hd : d ≠ "" := by
      intro h0
      exact h c hc (by rw [hfu, h0])
    simp [Function.comp, deriveOverdue, hfu, hd]

/-- C4 witness: the agreement at a store holding one overdue and one
missing follow_up_date. -/
theorem c4_witness :
    dashboardOverdueCount "2026-10-12"
      ⟨3, [⟨1, "Ada", "ada@x.io", some "", "Lead", some "2026-01-01", some ""⟩,
           ⟨2, "Bob", "bob@x.io", some "", "Active", none, some ""⟩]⟩ =
    listOverdueCount "2026-10-12"
      ⟨3, [⟨1, "Ada", "ada@x.io", some "", "Lead", some "2026-01-01", some ""⟩,
           ⟨2, "Bob", "bob@x.io", some "", "Active", none, some ""⟩]⟩ :=
  c4_amended "2026-10-12"
    ⟨3, [⟨1, "Ada", "ada@x.io", some "", "Lead", some "2026-01-01", some ""⟩,
         ⟨2, "Bob", "bob@x.io", some "", "Active", none, some ""⟩]⟩
    (by decide)

/-- C6: on a store whose ids are all below the AUTOINCREMENT counter,
an API create with nonempty trimmed name and email returns 201 with the
inserted record carrying the generated id, and an immediate GET of that
id returns 200 with the identical record. -/
theorem c6_create_then_fetch (s : Store) (p : Payload) (qp : QueryParams)
    (hfresh : ∀ c ∈ s.clients, c.id < s.nextId)
    (hn : pyStrip (p.name.getD "") ≠ "") (he : pyStrip (p.email.getD "") ≠ "") :
    ∃ created s2,
      handle_api_clients "POST" p qp s =
        .ok ⟨201, [("Content-Type", "application/json")], .jsonClient created⟩ s2 ∧
      created.id = s.nextId ∧
      handle_api_client_detail "GET" Payload.emptyBody (created.id : Int) s2 =
        .ok ⟨200, [("Content-Type", "application/json")], .jsonClient created⟩ s2 := by
  have hfetch := fetchClient_append_fresh s
    ⟨s.nextId, pyStrip (p.name.getD ""), pyStrip (p.email.getD ""),
      some (pyStrip (p.phone.getD "")), p.status.getD "Lead",
      pyOrNone (p.follow_up_date.getD ""), some (pyStrip (p.notes.getD ""))⟩
    (s.nextId + 1) hfresh rfl
  refine ⟨⟨s.nextId, pyStrip (p.name.getD ""), pyStrip (p.email.getD ""),
      some (pyStrip (p.phone.getD "")), p.status.getD "Lead",
      pyOrNone (p.follow_up_date.getD ""), some (pyStrip (p.notes.getD ""))⟩,
    ⟨s.nextId + 1, s.clients ++
      [⟨s.nextId, pyStrip (p.name.getD ""), pyStrip (p.email.getD ""),
        some (pyStrip (p.phone.getD "")), p.status.getD "Lead",
        pyOrNone (p.follow_up_date.getD ""), some (pyStrip (p.notes.getD ""))⟩]⟩,
    ?_, rfl, ?_⟩
  · simp only [handle_api_clients]
    rw [if_pos trivial]
    rw [if_neg (show ¬ (pyStrip (p.name.getD "") = "" ∨ pyStrip (p.email.getD "") = "")
      from fun h0 => h0.elim hn he)]
    simp only [insertClient]
    rw [hfetch]
    rw [if_neg (show ¬ ("POST" : String) = "GET" by decide)]
  · show handle_api_client_detail "GET" Payload.emptyBody (s.nextId : Int) _ = _
    simp only [handle_api_client_detail]
    rw [hfetch]
    rw [if_pos trivial]

/-- C6 witness: creating Ada on the empty store and fetching id 1. -/
theorem c6_witness :
    ∃ created s2,
      handle_api_clients "POST" ⟨some "Ada", some "ada@x.io", none, none, none, none⟩
          QueryParams.emptyQuery ⟨1, []⟩ =
        .ok ⟨201, [("Content-Type", "application/json")], .jsonClient created⟩ s2 ∧
      created.id = 1 ∧
      handle_api_client_detail "GET" Payload.emptyBody (created.id : Int) s2 =
        .ok ⟨200, [("Content-Type", "application/json")], .jsonClient created⟩ s2 :=
  c6_create_then_fetch ⟨1, []⟩ ⟨some "Ada", some "ada@x.io", none, none, none, none⟩
    QueryParams.emptyQuery (by decide) (by decide) (by decide)

end FortivoCRM
